import Mathlib

/-!
Shallow embedding of the analysis/decision pipeline of the insider_crypto_bot
repository (src/analysis/analysis_logic.py, src/memecoins/memecoin.py,
src/memecoins/memecoin_manager.py, src/error_handling/exceptions.py).

Modelling conventions:
* Python runtime values are modelled by the inductive `PyVal`; Python float
  arithmetic is modelled exactly over `Rat` (the spec states the thresholds as
  exact literals).  `bool` is a subclass of `int` in Python, so `isinstance(x,
  int)` and `isinstance(x, (float, int))` accept booleans; the embedding's
  kind predicates mirror this.
* Python dicts with string keys are association lists (`PyDict`) with unique
  keys; `d.lookup k` models `d[k]` presence/lookup.
* Fallible Python code returns `Except PyErr _`; raising an exception is
  returning `.error`.
* `async` functions are embedded as the value produced by awaiting the call.
  The `handle_errors` decorator is a synchronous wrapper: applied to an
  `async def`, its try/except only guards creation of the coroutine object
  (which cannot raise), so it has no effect on the awaited behaviour of
  `realtime_monitoring`, `process_memecoin` and `_calculate_sentiment_score`.
  Applied to the synchronous `apply_technical_analysis` and
  `detect_opportunities` (both with `re_raise=True`, and all raised errors
  being project errors) it logs and re-raises, i.e. it is the identity on the
  error behaviour; those bodies are therefore embedded directly.
* Logging and `print` calls are side effects outside the modelled state.
-/

namespace InsiderCrypto

/-- Python runtime values occurring in the analysis pipeline.  String-keyed
dictionaries are association lists; `pyObj` stands for any other object (one
that is neither a number, bool, string, None nor dict), tagged with its type
name. -/
inductive PyVal where
  | pyStr : String → PyVal
  | pyInt : Int → PyVal
  | pyFloat : Rat → PyVal
  | pyBool : Bool → PyVal
  | pyNone : PyVal
  | pyDict : List (String × PyVal) → PyVal
  | pyObj : String → PyVal

/-- Python dict with string keys, as an association list with unique keys. -/
abbrev PyDict := List (String × PyVal)

/-- A social post, a dict (the source documents `social_data` as a list of
dicts). -/
abbrev Post := PyDict

/-- Models `isinstance(x, (float, int))`; Python `bool` is a subclass of
`int`. -/
def PyVal.isNumber : PyVal → Bool
  | .pyInt _ => true
  | .pyFloat _ => true
  | .pyBool _ => true
  | _ => false

/-- Models `isinstance(x, int)`; Python `bool` is a subclass of `int`. -/
def PyVal.isInt : PyVal → Bool
  | .pyInt _ => true
  | .pyBool _ => true
  | _ => false

/-- Models `isinstance(x, str)`. -/
def PyVal.isStr : PyVal → Bool
  | .pyStr _ => true
  | _ => false

/-- Models `x is None`. -/
def PyVal.isNone : PyVal → Bool
  | .pyNone => true
  | _ => false

/-- Value of a run of decimal digits; `none` if empty or a non-digit occurs. -/
def digitsVal : List Char → Option Nat
  | [] => none
  | cs =>
    cs.foldl (fun acc c =>
      match acc with
      | none => none
      | some n => if c.isDigit then some (n * 10 + (c.toNat - 48)) else none)
      (some 0)

/-- Unsigned decimal literal, with an optional fractional part
(`"12"`, `"12.5"`, `"12."`, `".5"`). -/
def parseUnsignedFloat (s : String) : Option Rat :=
  match s.splitOn "." with
  | [ip] => (digitsVal ip.toList).map (fun n => (n : Rat))
  | [ip, fp] =>
    if ip.isEmpty && fp.isEmpty then none
    else
      let ipv : Option Nat := if ip.isEmpty then some 0 else digitsVal ip.toList
      let fpv : Option Nat := if fp.isEmpty then some 0 else digitsVal fp.toList
      match ipv, fpv with
      | some i, some f => some ((i : Rat) + (f : Rat) / ((10 : Rat) ^ fp.length))
      | _, _ => none
  | _ => none

/-- Decimal literal accepted by Python `float(str)`: optional surrounding
whitespace, optional sign, digits with an optional fractional part.  (Exotic
literals — exponents, `inf`, `nan`, underscores — are outside the modelled
value universe.) -/
def parseFloatLit (s : String) : Option Rat :=
  match s.trim.toList with
  | '-' :: rest => (parseUnsignedFloat (String.mk rest)).map Neg.neg
  | '+' :: rest => parseUnsignedFloat (String.mk rest)
  | _ => parseUnsignedFloat s.trim

/-- Integer literal accepted by Python `int(str)`. -/
def parseIntLit (s : String) : Option Int :=
  match s.trim.toList with
  | '-' :: rest => (digitsVal rest).map (fun n => -(n : Int))
  | '+' :: rest => (digitsVal rest).map (fun n => (n : Int))
  | cs => (digitsVal cs).map (fun n => (n : Int))

/-- Models Python `float(x)`: `none` when `float` raises
`TypeError`/`ValueError`. -/
def PyVal.toFloat : PyVal → Option Rat
  | .pyInt n => some (n : Rat)
  | .pyFloat q => some q
  | .pyBool b => some (if b then 1 else 0)
  | .pyStr s => parseFloatLit s
  | _ => none

/-- Models Python `int(x)`: floats truncate toward zero; `none` when `int`
raises. -/
def PyVal.toIntVal : PyVal → Option Int
  | .pyInt n => some n
  | .pyFloat q => some (Int.tdiv q.num (q.den : Int))
  | .pyBool b => some (if b then 1 else 0)
  | .pyStr s => parseIntLit s
  | _ => none

/-- Exceptions of the project (src/error_handling/exceptions.py), keeping the
structured context the claims mention: the `field` of a `DataValidationError`,
the `component`/`input_data`/`details` of a `ProcessingError`, the
`metric`/`details` of an `AnalysisError`.  `typeErr`/`keyErr` model plain
Python `TypeError`/`KeyError`. -/
inductive PyErr where
  | validation : String → String → PyErr
  | processing : String → Option PyVal → String → PyErr
  | analysis : String → String → PyErr
  | typeErr : String → PyErr
  | keyErr : String → PyErr

/-- Short rendering used where the source stringifies a caught exception
(`details=str(e)`). -/
def PyErr.describe : PyErr → String
  | .validation f m => "[DataValidationError] " ++ m ++ " (Campo: " ++ f ++ ")"
  | .processing c _ d => "[ProcessingError] (Componente: " ++ c ++ ") " ++ d
  | .analysis m d => "[AnalysisError] (Métrica: " ++ m ++ ") " ++ d
  | .typeErr m => "TypeError: " ++ m
  | .keyErr k => "KeyError: " ++ k

/-- The Coin Record (src/memecoins/memecoin.py, `@dataclass Memecoin`).  The
dataclass is not frozen, so field values are arbitrary Python values; only
`__post_init__` constrains them at construction time.  `symbol` is the string
key supplied by the pipeline. -/
structure MemecoinObj where
  symbol : String
  name : PyVal
  price : PyVal
  volume_24h : PyVal
  liquidity : PyVal
  holders : PyVal
  social_mentions : PyVal
  sentiment_score : PyVal

/-- Models `Memecoin.__post_init__`: kind checks only, in source order; each
failure raises an `AnalysisError` whose `metric` names the offending field. -/
def memecoinPostInit (m : MemecoinObj) : Except PyErr Unit :=
  if !m.price.isNumber then
    .error (.analysis "price" "O atributo price deve ser um número")
  else if !m.volume_24h.isNumber then
    .error (.analysis "volume_24h" "O atributo volume_24h deve ser um número")
  else if !m.liquidity.isNumber then
    .error (.analysis "liquidity" "O atributo liquidity deve ser um número")
  else if !m.holders.isInt then
    .error (.analysis "holders" "O atributo holders deve ser um inteiro")
  else if !m.social_mentions.isInt then
    .error (.analysis "social_mentions" "O atributo social_mentions deve ser um inteiro")
  else if !(m.sentiment_score.isNone || m.sentiment_score.isNumber) then
    .error (.analysis "sentiment_score" "O atributo sentiment_score deve ser um número ou None")
  else
    .ok ()

/-- Models `Memecoin(...)`: builds the record and runs `__post_init__`. -/
def mkMemecoin (symbol : String) (name price volume_24h liquidity holders
    social_mentions sentiment_score : PyVal) : Except PyErr MemecoinObj :=
  let m : MemecoinObj :=
    ⟨symbol, name, price, volume_24h, liquidity, holders, social_mentions,
      sentiment_score⟩
  match memecoinPostInit m with
  | .ok _ => .ok m
  | .error e => .error e

/-- The Coin Registry (src/memecoins/memecoin_manager.py, `MemecoinManager`):
a plain list of records. -/
structure MemecoinManager where
  memecoins : List MemecoinObj

/-- Models `MemecoinManager.__init__`: the empty registry. -/
def MemecoinManager.new : MemecoinManager := ⟨[]⟩

/-- Models `MemecoinManager.add_memecoin`: `self.memecoins.append(memecoin)`. -/
def MemecoinManager.add_memecoin (mgr : MemecoinManager) (m : MemecoinObj) :
    MemecoinManager :=
  ⟨mgr.memecoins ++ [m]⟩

/-- Required market fields with their `isinstance` checks, in source order
(`MarketAnalyzer._validate_market_data`). -/
def requiredMarketFields : List (String × (PyVal → Bool)) :=
  [("name", PyVal.isStr), ("price", PyVal.isNumber), ("volume", PyVal.isNumber),
   ("liquidity", PyVal.isNumber), ("holders", PyVal.isInt)]

/-- The field loop of `_validate_market_data`: first missing field raises the
absence error, first mistyped field raises the type error. -/
def checkFields : List (String × (PyVal → Bool)) → PyDict → Except PyErr Unit
  | [], _ => .ok ()
  | (f, ty) :: rest, data =>
    match data.lookup f with
    | none => .error (.validation ("market_data." ++ f)
        ("Campo obrigatório ausente: " ++ f))
    | some v =>
      if ty v then checkFields rest data
      else .error (.validation ("market_data." ++ f) ("Tipo inválido para " ++ f))

/-- Models `MarketAnalyzer._validate_market_data` (the `symbol` argument is
unused in the source body). -/
def validateMarketData (data : PyDict) : Except PyErr Unit :=
  checkFields requiredMarketFields data

/-- Shape of the social payload (annotated `Union[Dict, List[Dict]]` in the
source; `other` is any value of another type, tagged with its type name). -/
inductive SocialData where
  | dict : PyDict → SocialData
  | list : List Post → SocialData
  | other : String → SocialData

/-- The per-post loop of `_validate_social_data` for list-shaped payloads:
post `i` without a `"text"` key raises. -/
def checkPosts (i : Nat) : List Post → Except PyErr Unit
  | [] => .ok ()
  | p :: rest =>
    if (p.lookup "text").isSome then checkPosts (i + 1) rest
    else .error (.validation ("social_data[" ++ toString i ++ "].text")
        ("Post " ++ toString i ++ " sem texto"))

/-- Models `MarketAnalyzer._validate_social_data`. -/
def validateSocialData (symbol : String) (data : SocialData) : Except PyErr Unit :=
  match data with
  | .dict kvs =>
    if (kvs.lookup "mentions").isSome && (kvs.lookup "sentiment").isSome then
      .ok ()
    else
      .error (.validation "social_data"
        ("Dados sociais para " ++ symbol ++ " incompletos"))
  | .list posts =>
    if posts.isEmpty then
      .error (.validation "social_data"
        ("Lista de dados sociais para " ++ symbol ++ " está vazia"))
    else
      checkPosts 0 posts
  | .other _ =>
    .error (.validation "social_data"
      "Dados sociais devem ser um dicionário ou uma lista de dicionários")

/-- Exceptions raised while scoring one post, as discriminated by the
`try`/`except` of `_calculate_sentiment_score`: a `KeyError` (from the scorer
or from the `["vader_score"]["compound"]` subscripts) is skipped, any other
exception aborts with a `ProcessingError`. -/
inductive ScorerErr where
  | keyError : String → ScorerErr
  | other : String → ScorerErr

/-- The external sentiment scorer (`social_api.analyze_sentiment`), an injected
collaborator: maps the post's `"text"` value to a result dict or an
exception. -/
abbrev Scorer := PyVal → Except ScorerErr PyVal

/-- Models a Python subscript `v[key]`: `KeyError` on a dict without the key,
`TypeError` otherwise (non-dict results are outside the modelled universe of
scorer outputs). -/
def getItem (v : PyVal) (key : String) : Except ScorerErr PyVal :=
  match v with
  | .pyDict kvs =>
    match kvs.lookup key with
    | some x => .ok x
    | none => .error (.keyError key)
  | _ => .error (.other "objeto não subscritável")

/-- The scoring loop of `_calculate_sentiment_score`: posts without `"text"`
are skipped; `KeyError`s are skipped; any other scorer failure raises a
`ProcessingError` naming the component `nlp_processor`, the offending post and
the cause. -/
def collectScores (scorer : Scorer) : List Post → Except PyErr (List PyVal)
  | [] => .ok []
  | post :: rest =>
    match post.lookup "text" with
    | none => collectScores scorer rest
    | some text =>
      match (do
          let s ← scorer text
          let v ← getItem s "vader_score"
          getItem v "compound") with
      | .ok c =>
        match collectScores scorer rest with
        | .ok cs => .ok (c :: cs)
        | .error e => .error e
      | .error (.keyError _) => collectScores scorer rest
      | .error (.other msg) =>
        .error (.processing "nlp_processor" (some (.pyDict post)) msg)

/-- Numeric value usable by Python `sum`; `none` for operands that make `+`
raise a `TypeError`. -/
def pyNumVal : PyVal → Option Rat
  | .pyInt n => some (n : Rat)
  | .pyFloat q => some q
  | .pyBool b => some (if b then 1 else 0)
  | _ => none

/-- Models `sum(scores)`: `none` when some score is not a number. -/
def sumScores : List PyVal → Option Rat
  | [] => some 0
  | v :: rest =>
    match pyNumVal v, sumScores rest with
    | some q, some s => some (q + s)
    | _, _ => none

/-- Python banker's rounding of a rational to the nearest integer (ties to
even), as used by `round`. -/
def roundHalfEven (x : Rat) : Int :=
  let f := x.floor
  let r := x - (f : Rat)
  if r < 1/2 then f
  else if 1/2 < r then f + 1
  else if f % 2 = 0 then f else f + 1

/-- Models `round(x, 4)`. -/
def round4 (x : Rat) : Rat :=
  ((roundHalfEven (x * 10000) : Rat)) / 10000

/-- Models the awaited behaviour of `MarketAnalyzer._calculate_sentiment_score`
(its `handle_errors` decorator has no effect on an `async def`, see the module
comment): empty input or no collected score yields `0.0`, otherwise the
rounded average of the collected compound scores. -/
def calculateSentimentScore (scorer : Scorer) (social_data : List Post) :
    Except PyErr Rat :=
  if social_data.isEmpty then .ok 0
  else
    match collectScores scorer social_data with
    | .error e => .error e
    | .ok [] => .ok 0
    | .ok scores =>
      match sumScores scores with
      | some s => .ok (round4 (s / (scores.length : Rat)))
      | none => .error (.typeErr "operando não numérico em sum")

/-- Field-presence loop of `_create_memecoin_instance`: the first absent field,
if any. -/
def firstMissingField : List String → PyDict → Option String
  | [], _ => none
  | f :: rest, d =>
    if (d.lookup f).isSome then firstMissingField rest d else some f

/-- Required fields checked (presence only) by `_create_memecoin_instance`. -/
def requiredCreateFields : List String :=
  ["name", "price", "volume", "liquidity", "holders"]

/-- Dict subscript after the presence loop (`market_data["price"]` etc.). -/
def getRequired (d : PyDict) (f : String) : Except PyErr PyVal :=
  match d.lookup f with
  | some v => .ok v
  | none => .error (.keyErr f)

/-- Models Python `float(x)` as an expression: raises on non-coercible
values. -/
def pyFloatFn (v : PyVal) : Except PyErr Rat :=
  match v.toFloat with
  | some q => .ok q
  | none => .error (.typeErr "argumento inválido para float")

/-- Models Python `int(x)` as an expression: raises on non-coercible
values. -/
def pyIntFn (v : PyVal) : Except PyErr Int :=
  match v.toIntVal with
  | some n => .ok n
  | none => .error (.typeErr "argumento inválido para int")

/-- Models `float(market_data[f])` after the presence loop. -/
def getFloatField (d : PyDict) (f : String) : Except PyErr Rat :=
  match d.lookup f with
  | some v => pyFloatFn v
  | none => .error (.keyErr f)

/-- Models `int(market_data[f])` after the presence loop. -/
def getIntField (d : PyDict) (f : String) : Except PyErr Int :=
  match d.lookup f with
  | some v => pyIntFn v
  | none => .error (.keyErr f)

/-- Models the awaited behaviour of `MarketAnalyzer._create_memecoin_instance`:
presence check on the market fields, list check on the social data, sentiment
computation whose any failure is caught and defaulted to `0.0`, then
`Memecoin(...)` construction with `float`/`int` coercions. -/
def createMemecoinInstance (scorer : Scorer) (symbol : String)
    (market_data : PyDict) (social_data : SocialData) :
    Except PyErr MemecoinObj :=
  match firstMissingField requiredCreateFields market_data with
  | some f =>
    .error (.validation ("market_data." ++ f)
      ("Dados de mercado inválidos: campo " ++ f ++ " ausente"))
  | none =>
    match social_data with
    | .list posts =>
      let sentiment : Rat :=
        match calculateSentimentScore scorer posts with
        | .ok s => s
        | .error _ => 0
      match getRequired market_data "name" with
      | .error e => .error e
      | .ok nm =>
        match getFloatField market_data "price" with
        | .error e => .error e
        | .ok pq =>
          match getFloatField market_data "volume" with
          | .error e => .error e
          | .ok vq =>
            match getFloatField market_data "liquidity" with
            | .error e => .error e
            | .ok lq =>
              match getIntField market_data "holders" with
              | .error e => .error e
              | .ok hk =>
                mkMemecoin symbol nm (.pyFloat pq) (.pyFloat vq) (.pyFloat lq)
                  (.pyInt hk) (.pyInt (posts.length : Int)) (.pyFloat sentiment)
    | .dict _ =>
      .error (.validation "social_data"
        "Dados sociais inválidos: deve ser uma lista de dicionários")
    | .other _ =>
      .error (.validation "social_data"
        "Dados sociais inválidos: deve ser uma lista de dicionários")

/-- The injected market-data client: awaited `dex_api.fetch_market_data`. -/
abbrev MarketFetcher := String → Except PyErr PyDict

/-- The injected social-data client: awaited
`social_api.fetch_twitter_mentions`. -/
abbrev SocialFetcher := String → Except PyErr SocialData

/-- Models the awaited behaviour of `MarketAnalyzer.process_memecoin` up to the
final append: fetch both payloads, validate them, build the record.  (The
`handle_errors(re_raise=False)` decorator has no effect on an `async def`, so
errors propagate to the awaiting caller.) -/
def processMemecoinCore (fM : MarketFetcher) (fS : SocialFetcher)
    (scorer : Scorer) (symbol : String) : Except PyErr MemecoinObj := do
  let market_data ← fM symbol
  let social_data ← fS symbol
  let _ ← validateMarketData market_data
  let _ ← validateSocialData symbol social_data
  createMemecoinInstance scorer symbol market_data social_data

/-- Models the awaited behaviour of `MarketAnalyzer.process_memecoin`
including the final `add_memecoin` append, with the registry passed as
explicit state. -/
def processMemecoin (fM : MarketFetcher) (fS : SocialFetcher) (scorer : Scorer)
    (symbol : String) (mgr : MemecoinManager) : Except PyErr MemecoinManager :=
  match processMemecoinCore fM fS scorer symbol with
  | .ok m => .ok (mgr.add_memecoin m)
  | .error e => .error e

/-- The fan-out of `realtime_monitoring` over the deduplicated symbols.  The
source gathers the per-symbol tasks concurrently; under the single-threaded
cooperative scheduling of the source this is modelled as processing the
distinct symbols in sequence, stopping at the first raised error (the
first error is what `asyncio.gather` propagates). -/
def processAll (fM : MarketFetcher) (fS : SocialFetcher) (scorer : Scorer) :
    List String → MemecoinManager → Except PyErr MemecoinManager
  | [], mgr => .ok mgr
  | s :: rest, mgr =>
    match processMemecoin fM fS scorer s mgr with
    | .ok mgr' => processAll fM fS scorer rest mgr'
    | .error e => .error e

/-- Models the awaited behaviour of `MarketAnalyzer.realtime_monitoring`: an
empty symbol list raises a `DataValidationError`; otherwise the per-symbol
pipeline runs once per distinct symbol (`set(symbols)`, modelled as
`List.dedup`; the iteration order of a Python set is not guaranteed and only
the count matters to the claims), and a failure of the gathered run is wrapped
in a `ProcessingError` naming the component.  The `handle_errors
(re_raise=False)` decorator wraps the coroutine function synchronously, so its
`try`/`except` only guards coroutine creation and the raised errors reach the
awaiting caller (the repository's own test `test_fluxo_com_falhas` expects
exactly this propagation). -/
def realtimeMonitoringAwaited (fM : MarketFetcher) (fS : SocialFetcher)
    (scorer : Scorer) (symbols : List String) (mgr : MemecoinManager) :
    Except PyErr MemecoinManager :=
  if symbols.isEmpty then
    .error (.validation "symbols" "Lista de símbolos inválida")
  else
    match processAll fM fS scorer symbols.dedup mgr with
    | .ok mgr' => .ok mgr'
    | .error e =>
      .error (.processing "realtime_monitoring" none
        ("Falha na coleta de dados de mercado ou sociais: " ++ e.describe))

/-- Models `MarketAnalyzer.detect_opportunities` (its synchronous
`handle_errors(re_raise=True)` decorator logs and re-raises, so it is the
identity on behaviour).  A dataclass instance always has its attributes, so
the `hasattr` part of the missing check never fires and `missing` collects the
`None`-valued attributes, in source order.  Then `float` coercions of the
three attributes, any failure raising an `AnalysisError`; then the literal
threshold rule. -/
def detectOpportunities (m : MemecoinObj) : Except PyErr (Option String) :=
  let missing : List String :=
    (if m.sentiment_score.isNone then ["sentiment_score"] else []) ++
    (if m.volume_24h.isNone then ["volume_24h"] else []) ++
    (if m.price.isNone then ["price"] else [])
  if missing.isEmpty then
    match m.sentiment_score.toFloat, m.volume_24h.toFloat, m.price.toFloat with
    | some score, some volume, some _ =>
      if (7 : Rat)/10 < score ∧ (1000000 : Rat) < volume then .ok (some "buy")
      else if score < (3 : Rat)/10 ∧ volume < (500000 : Rat) then .ok (some "sell")
      else .ok none
    | _, _, _ =>
      .error (.analysis "sentiment_and_volume" "Tipo de dado inválido para análise")
  else
    .error (.validation "memecoin"
      ("Atributos faltantes ou nulos: " ++ String.intercalate ", " missing))

/-- A price-history table (`pandas.DataFrame`): its row count, and the
`"close"` column (absent, or a series with possible gaps). -/
structure HistDF where
  nrows : Nat
  close : Option (List (Option Rat))

/-- Forward fill (`Series.ffill`) with the running last seen value. -/
def ffillAux (last : Option Rat) : List (Option Rat) → List (Option Rat)
  | [] => []
  | none :: rest => last :: ffillAux last rest
  | some x :: rest => some x :: ffillAux (some x) rest

/-- Models `Series.ffill`. -/
def ffill (xs : List (Option Rat)) : List (Option Rat) := ffillAux none xs

/-- Models `Series.bfill`: forward fill of the reversed series. -/
def bfill (xs : List (Option Rat)) : List (Option Rat) :=
  (ffill xs.reverse).reverse

/-- Consecutive differences `Series.diff(1)` of the closing prices. -/
def diffs : List Rat → List Rat
  | a :: b :: rest => (b - a) :: diffs (b :: rest)
  | _ => []

/-- Modelled from the spec: Wilder's smoothed average with period `n`, the
smoothing used by the 14-period relative-strength index of the external `ta`
library (src/ only calls `RSIIndicator(closes, 14).rsi()`; the library's code
is not part of the repository). -/
def wilder (n : Nat) (xs : List Rat) : Rat :=
  xs.foldl (fun acc x => acc + (x - acc) / (n : Rat)) 0

/-- Modelled from the spec: the most recent value of the 14-period
relative-strength index (§4.4 of the spec; the `ta` library is external to
src/).  With no average loss the index saturates at 100. -/
def rsiLast (n : Nat) (closes : List Rat) : Rat :=
  let ds := diffs closes
  let avgGain := wilder n (ds.map (fun d => max d 0))
  let avgLoss := wilder n (ds.map (fun d => max (-d) 0))
  if avgLoss = 0 then 100
  else 100 - 100 / (1 + avgGain / avgLoss)

/-- Modelled from the spec: the most recent value of an exponential moving
average with the given span (external `ta` library). -/
def emaLast (span : Nat) : List Rat → Rat
  | [] => 0
  | x :: rest => rest.foldl (fun acc y => acc + (y - acc) * (2 / ((span : Rat) + 1))) x

/-- Modelled from the spec: the most recent value of the
moving-average-convergence-divergence line, the fast (12) minus the slow (26)
exponential moving average (§4.4; external `ta` library). -/
def macdLast (closes : List Rat) : Rat :=
  emaLast 12 closes - emaLast 26 closes

/-- The most recent length-`w` window of the series (all of it when shorter
than `w`). -/
def lastWindow (w : Nat) (xs : List Rat) : List Rat :=
  (xs.reverse.take w).reverse

/-- Arithmetic mean of a list of rationals (0 on the empty list). -/
def listMean (xs : List Rat) : Rat :=
  if xs.length = 0 then 0 else xs.sum / (xs.length : Rat)

/-- Sample variance (denominator `n - 1`, as pandas' rolling std uses) of a
list of rationals; 0 when fewer than two values. -/
def sampleVar (xs : List Rat) : Rat :=
  if xs.length ≤ 1 then 0
  else (xs.map (fun x => (x - listMean xs) ^ 2)).sum / ((xs.length : Rat) - 1)

/-- Modelled from the spec: the 20-period moving average the volatility bands
are centred on (§4.4; external `ta` library). -/
def bollMid (closes : List Rat) : Rat := listMean (lastWindow 20 closes)

/-- Modelled from the spec: the 20-period rolling standard deviation of the
closing prices (§4.4; external `ta` library). -/
noncomputable def bollSigma (closes : List Rat) : Real :=
  Real.sqrt ((sampleVar (lastWindow 20 closes) : Rat) : Real)

/-- Modelled from the spec: upper volatility band, two standard deviations
above the moving average (§4.4; external `ta` library). -/
noncomputable def bollUpper (closes : List Rat) : Real :=
  ((bollMid closes : Rat) : Real) + 2 * bollSigma closes

/-- Modelled from the spec: lower volatility band, two standard deviations
below the moving average (§4.4; external `ta` library). -/
noncomputable def bollLower (closes : List Rat) : Real :=
  ((bollMid closes : Rat) : Real) - 2 * bollSigma closes

/-- The four indicator values returned by `apply_technical_analysis`. -/
structure TAResult where
  rsi : Rat
  macd : Rat
  bollinger_upper : Real
  bollinger_lower : Real

/-- Models `MarketAnalyzer.apply_technical_analysis` (its synchronous
`handle_errors(re_raise=True)` decorator logs and re-raises, so it is the
identity on behaviour): row-count check, `"close"` column check,
forward/backward gap filling with a residual-gap check, then the indicator
computations (modelled from the spec, the `ta` library being external to
src/; in the embedding the indicator computations are total, so the
`AnalysisError` wrap of the source's final `try` is never taken). -/
noncomputable def applyTechnicalAnalysis (df : HistDF) : Except PyErr TAResult :=
  if df.nrows = 0 ∨ df.nrows < 14 then
    .error (.validation "historical_data.index"
      "Dados insuficientes, são necessários 14 períodos")
  else
    match df.close with
    | none =>
      .error (.validation "historical_data.columns" "Coluna close ausente")
    | some col =>
      let filled := bfill (ffill col)
      if filled.any (fun x => x.isNone) then
        .error (.validation "historical_data.close"
          "Série close contém valores inválidos")
      else
        let closes := filled.filterMap id
        .ok ⟨rsiLast 14 closes, macdLast closes, bollUpper closes,
          bollLower closes⟩

/-! Concrete fixtures, mirroring the repository's test fixtures
(src/tests/test_analysis.py): a valid market payload, a scorer returning a
fixed compound score, a failing scorer, and a one-post social payload. -/

/-- A valid market payload, as in the test fixtures. -/
def goodMarket : PyDict :=
  [("name", .pyStr "SOL Token"), ("price", .pyFloat 150),
   ("volume", .pyFloat 2000000), ("liquidity", .pyFloat 1000000),
   ("holders", .pyInt 10000)]

/-- A market payload with the `price` field absent. -/
def marketNoPrice : PyDict :=
  [("name", .pyStr "SOL Token"), ("volume", .pyFloat 2000000),
   ("liquidity", .pyFloat 1000000), ("holders", .pyInt 10000)]

/-- A scorer that always succeeds with compound score `0.8`. -/
def goodScorer : Scorer := fun _ =>
  .ok (.pyDict [("vader_score", .pyDict [("compound", .pyFloat (4/5))])])

/-- A scorer that always fails with a non-`KeyError` exception. -/
def failScorer : Scorer := fun _ => .error (.other "falha de API")

/-- A single social post carrying a text. -/
def onePost : Post := [("text", .pyStr "otimo projeto")]

/-- Market client returning the fixed valid payload for every symbol. -/
def goodMarketFetcher : MarketFetcher := fun _ => .ok goodMarket

/-- Social client returning the fixed one-post list for every symbol. -/
def goodSocialFetcher : SocialFetcher := fun _ => .ok (.list [onePost])

/-- A price-history table with 13 gap-free rows. -/
def df13 : HistDF := ⟨13, some (List.replicate 13 (some 100))⟩

/-- A price-history table with 20 gap-free rows. -/
def df20 : HistDF := ⟨20, some (List.replicate 20 (some 100))⟩

/-- A fully populated record meeting the buy thresholds. -/
def buyCoin : MemecoinObj :=
  ⟨"SOL", .pyStr "Solana", .pyFloat 150, .pyFloat 1500000, .pyFloat 1000000,
    .pyInt 1000, .pyInt 50, .pyFloat (3/4)⟩

/-- A record with a `None` sentiment score. -/
def coinNullSentiment : MemecoinObj :=
  ⟨"SOL", .pyStr "Solana", .pyFloat 100, .pyFloat 500000, .pyFloat 1000000,
    .pyInt 1000, .pyInt 50, .pyNone⟩

/-- A record whose sentiment score is a non-coercible object. -/
def coinBadSentiment : MemecoinObj :=
  ⟨"SOL", .pyStr "Solana", .pyFloat 100, .pyFloat 500000, .pyFloat 1000000,
    .pyInt 1000, .pyInt 50, .pyObj "dict"⟩

end InsiderCrypto

namespace InsiderCrypto

/-- A value whose `float` coercion succeeds is not `None`. -/
theorem PyVal.isNone_false_of_toFloat (v : PyVal) (q : Rat)
    (h : v.toFloat = some q) : v.isNone = false := by
  cases v <;> simp_all [PyVal.toFloat, PyVal.isNone]

/-- C1: on a record whose sentiment score, 24h volume and price are all
present, non-null and coercible to numbers, `detect_opportunities` returns
exactly the literal-threshold classification of (sentiment score, volume):
"buy" iff score > 0.7 and volume > 1 000 000, "sell" iff score < 0.3 and
volume < 500 000, and no signal otherwise; the right-hand side mentions only
the two coerced values, so no other field influences the result. -/
theorem detect_opportunities_signal_rule (m : MemecoinObj) (s v p : Rat)
    (hs : m.sentiment_score.toFloat = some s)
    (hv : m.volume_24h.toFloat = some v)
    (hp : m.price.toFloat = some p) :
    detectOpportunities m =
      .ok (if (7 : Rat)/10 < s ∧ (1000000 : Rat) < v then some "buy"
        else if s < (3 : Rat)/10 ∧ v < (500000 : Rat) then some "sell"
        else none) := by
  have h1 := PyVal.isNone_false_of_toFloat _ _ hs
  have h2 := PyVal.isNone_false_of_toFloat _ _ hv
  have h3 := PyVal.isNone_false_of_toFloat _ _ hp
  simp [detectOpportunities, h1, h2, h3, hs, hv, hp, apply_ite Except.ok]

/-- Witness for C1: the buy fixture (score 0.75, volume 1 500 000) yields the
"buy" signal through `detect_opportunities_signal_rule`. -/
theorem detect_opportunities_signal_rule_witness :
    detectOpportunities buyCoin = .ok (some "buy") := by
  have h := detect_opportunities_signal_rule buyCoin (3/4) 1500000 150 rfl rfl rfl
  rw [h]
  norm_num

/-- C8: `detect_opportunities` raises a `DataValidationError` whenever any of
the three required attributes is `None`, and an `AnalysisError` whenever all
are non-`None` but some of them cannot be coerced to a number; in either case
the result is an error, not a signal. -/
theorem detect_opportunities_failure_contract (m : MemecoinObj) :
    ((m.sentiment_score.isNone = true ∨ m.volume_24h.isNone = true ∨
        m.price.isNone = true) →
      ∃ msg, detectOpportunities m = .error (.validation "memecoin" msg)) ∧
    ((m.sentiment_score.isNone = false ∧ m.volume_24h.isNone = false ∧
        m.price.isNone = false) →
      (m.sentiment_score.toFloat = none ∨ m.volume_24h.toFloat = none ∨
        m.price.toFloat = none) →
      detectOpportunities m =
        .error (.analysis "sentiment_and_volume"
          "Tipo de dado inválido para análise")) := by
  constructor
  · intro h
    cases hs : m.sentiment_score.isNone <;> cases hv : m.volume_24h.isNone <;>
      cases hp : m.price.isNone <;>
      simp_all [detectOpportunities]
  · intro h1 h2
    cases hsf : m.sentiment_score.toFloat <;> cases hvf : m.volume_24h.toFloat <;>
      cases hpf : m.price.toFloat <;>
      simp_all [detectOpportunities]

/-- Witness for C8: a record with `None` sentiment raises the validation
error; a record whose sentiment is a non-coercible object raises the analysis
error. -/
theorem detect_opportunities_failure_contract_witness :
    (∃ msg, detectOpportunities coinNullSentiment =
      .error (.validation "memecoin" msg)) ∧
    detectOpportunities coinBadSentiment =
      .error (.analysis "sentiment_and_volume"
        "Tipo de dado inválido para análise") :=
  ⟨(detect_opportunities_failure_contract coinNullSentiment).1 (Or.inl rfl),
   (detect_opportunities_failure_contract coinBadSentiment).2
     ⟨rfl, rfl, rfl⟩ (Or.inl rfl)⟩

/-- The field loop succeeds exactly when every listed field is present with
the right kind. -/
theorem checkFields_ok_iff (fs : List (String × (PyVal → Bool))) (d : PyDict) :
    checkFields fs d = .ok () ↔
      ∀ p ∈ fs, ∃ v, d.lookup p.1 = some v ∧ p.2 v = true := by
  induction fs with
  | nil => simp [checkFields]
  | cons p rest ih =>
    obtain ⟨f, ty⟩ := p
    cases h : d.lookup f with
    | none => simp [checkFields, h]
    | some v =>
      cases hty : ty v with
      | true => simp [checkFields, h, hty, ih]
      | false => simp [checkFields, h, hty]

/-- When the field loop fails, the raised validation error names a listed
field that is missing or mistyped. -/
theorem checkFields_error_names_bad_field
    (fs : List (String × (PyVal → Bool))) (d : PyDict) (e : PyErr)
    (h : checkFields fs d = .error e) :
    ∃ f ty msg, (f, ty) ∈ fs ∧ e = .validation ("market_data." ++ f) msg ∧
      ¬ ∃ v, d.lookup f = some v ∧ ty v = true := by
  induction fs with
  | nil => simp [checkFields] at h
  | cons p rest ih =>
    obtain ⟨f, ty⟩ := p
    rw [checkFields] at h
    cases hl : d.lookup f with
    | none =>
      rw [hl] at h
      exact ⟨f, ty, _, by simp, (Except.error.injEq _ _).mp h.symm, by simp [hl]⟩
    | some v =>
      rw [hl] at h
      cases hty : ty v with
      | true =>
        simp only [hty, if_true] at h
        obtain ⟨f', ty', msg, hmem, he, hbad⟩ := ih h
        exact ⟨f', ty', msg, by simp [hmem], he, hbad⟩
      | false =>
        simp [hty] at h
        refine ⟨f, ty, _, by simp, h.symm, ?_⟩
        simp [hl, hty]

/-- C6: market-payload validation succeeds exactly when the payload holds a
string `name`, numeric `price`, `volume` and `liquidity` and an integer
`holders`; and every validation failure carries a field context
`market_data.f` for some required field `f` that is missing or mistyped in
the payload. -/
theorem validate_market_data_contract (d : PyDict) :
    (validateMarketData d = .ok () ↔
      ((∃ v, d.lookup "name" = some v ∧ v.isStr = true) ∧
       (∃ v, d.lookup "price" = some v ∧ v.isNumber = true) ∧
       (∃ v, d.lookup "volume" = some v ∧ v.isNumber = true) ∧
       (∃ v, d.lookup "liquidity" = some v ∧ v.isNumber = true) ∧
       (∃ v, d.lookup "holders" = some v ∧ v.isInt = true))) ∧
    (∀ e, validateMarketData d = .error e →
      ∃ f ty msg, (f, ty) ∈ requiredMarketFields ∧
        e = .validation ("market_data." ++ f) msg ∧
        ¬ ∃ v, d.lookup f = some v ∧ ty v = true) := by
  constructor
  · rw [validateMarketData, checkFields_ok_iff]
    simp [requiredMarketFields, and_assoc]
  · intro e he
    exact checkFields_error_names_bad_field _ _ _ he

/-- Witness for C6: the fixture payload validates, and the payload missing
`price` fails with an error whose field context is `market_data.price`. -/
theorem validate_market_data_contract_witness :
    validateMarketData goodMarket = .ok () ∧
    (∃ f ty msg, (f, ty) ∈ requiredMarketFields ∧
      PyErr.validation "market_data.price" "Campo obrigatório ausente: price" =
        .validation ("market_data." ++ f) msg ∧
      ¬ ∃ v, marketNoPrice.lookup f = some v ∧ ty v = true) :=
  ⟨(validate_market_data_contract goodMarket).1.mpr
      ⟨⟨.pyStr "SOL Token", rfl, rfl⟩, ⟨.pyFloat 150, rfl, rfl⟩,
       ⟨.pyFloat 2000000, rfl, rfl⟩, ⟨.pyFloat 1000000, rfl, rfl⟩,
       ⟨.pyInt 10000, rfl, rfl⟩⟩,
   (validate_market_data_contract marketNoPrice).2 _ rfl⟩

/-- Posts all lacking a `"text"` key are all skipped by the scoring loop. -/
theorem collectScores_textless (scorer : Scorer) (posts : List Post)
    (h : ∀ p ∈ posts, p.lookup "text" = none) :
    collectScores scorer posts = .ok [] := by
  induction posts with
  | nil => rfl
  | cons p rest ih =>
    have hp := h p (by simp)
    rw [collectScores, hp]
    exact ih (fun q hq => h q (by simp [hq]))

/-- C7: social-payload validation fails with a validation error on an empty
list; sentiment aggregation over a non-empty list of posts all lacking
`"text"` skips every post and returns `0.0` without error; and `0.0` is the
result whenever the scoring loop collects no usable score. -/
theorem social_empty_and_textless_contract :
    (∀ symbol, validateSocialData symbol (.list []) =
      .error (.validation "social_data"
        ("Lista de dados sociais para " ++ symbol ++ " está vazia"))) ∧
    (∀ (scorer : Scorer) (posts : List Post), posts ≠ [] →
      (∀ p ∈ posts, p.lookup "text" = none) →
      calculateSentimentScore scorer posts = .ok 0) ∧
    (∀ (scorer : Scorer) (posts : List Post),
      collectScores scorer posts = .ok [] →
      calculateSentimentScore scorer posts = .ok 0) := by
  refine ⟨fun _ => rfl, fun scorer posts _ h => ?_, fun scorer posts h => ?_⟩
  · rw [calculateSentimentScore, collectScores_textless scorer posts h]
    cases posts <;> simp
  · rw [calculateSentimentScore, h]
    cases posts <;> simp

/-- Witness for C7: the empty list fails validation for symbol `"SOL"`, and a
one-post payload without text aggregates to `0.0` under the failing scorer. -/
theorem social_empty_and_textless_contract_witness :
    validateSocialData "SOL" (.list []) =
      .error (.validation "social_data"
        "Lista de dados sociais para SOL está vazia") ∧
    calculateSentimentScore failScorer [[("user", .pyStr "a")]] = .ok 0 :=
  ⟨social_empty_and_textless_contract.1 "SOL",
   social_empty_and_textless_contract.2.1 failScorer [[("user", .pyStr "a")]]
     (by simp)
     (by intro p hp; simp only [List.mem_singleton] at hp; subst hp; rfl)⟩

/-- C9: the registry is created empty, its only mutating operation
(`add_memecoin`) appends exactly one record at the end — so existing records
are never removed, reordered or mutated — and appending is unconditional, so
two records with the same symbol (in particular two copies of one record, or
any two records regardless of their symbols) coexist. -/
theorem registry_append_only :
    MemecoinManager.new.memecoins = ([] : List MemecoinObj) ∧
    (∀ (mgr : MemecoinManager) (m : MemecoinObj),
      (mgr.add_memecoin m).memecoins = mgr.memecoins ++ [m]) ∧
    (∀ (m₁ m₂ : MemecoinObj),
      ((MemecoinManager.new.add_memecoin m₁).add_memecoin m₂).memecoins =
        [m₁, m₂]) :=
  ⟨rfl, fun _ _ => rfl, fun _ _ => rfl⟩

/-- C10: `Memecoin.__post_init__` checks only the kind of each field:
construction succeeds for every input whose price, volume and liquidity are
numbers, whose holders and social-mention counts are integers and whose
sentiment score is a number or `None` — regardless of sign, magnitude, range
or an empty symbol string — and the constructed record echoes the inputs. -/
theorem memecoin_construction_kind_checks_only (symbol : String)
    (name price volume liquidity holders mentions sentiment : PyVal)
    (hp : price.isNumber = true) (hv : volume.isNumber = true)
    (hl : liquidity.isNumber = true) (hh : holders.isInt = true)
    (hm : mentions.isInt = true)
    (hs : sentiment.isNone = true ∨ sentiment.isNumber = true) :
    mkMemecoin symbol name price volume liquidity holders mentions sentiment =
      .ok ⟨symbol, name, price, volume, liquidity, holders, mentions,
        sentiment⟩ := by
  rcases hs with hs | hs <;>
    simp [mkMemecoin, memecoinPostInit, hp, hv, hl, hh, hm, hs]

/-- Forward filling leaves a gap-free series unchanged. -/
theorem ffillAux_of_all_some (last : Option Rat) (xs : List (Option Rat))
    (h : ∀ x ∈ xs, x.isSome = true) : ffillAux last xs = xs := by
  induction xs generalizing last with
  | nil => rfl
  | cons x rest ih =>
    cases x with
    | none => simpa using h none (by simp)
    | some a =>
      show some a :: ffillAux (some a) rest = some a :: rest
      rw [ih (some a) (fun y hy => h y (by simp [hy]))]

/-- Backward filling leaves a gap-free series unchanged. -/
theorem bfill_of_all_some (xs : List (Option Rat))
    (h : ∀ x ∈ xs, x.isSome = true) : bfill xs = xs := by
  rw [bfill, ffill, ffillAux_of_all_some _ _ (fun y hy => h y (by
    simpa using hy)), List.reverse_reverse]

/-- C2: the indicator computation fails with a validation error (field context
`historical_data.index`) on every table with fewer than 14 rows, and on every
table with at least 14 rows and a gap-free close column it returns the four
indicator values with the lower volatility band at or below the upper one. -/
theorem apply_technical_analysis_contract (df : HistDF) :
    (df.nrows < 14 →
      ∃ msg, applyTechnicalAnalysis df =
        .error (.validation "historical_data.index" msg)) ∧
    (∀ cs, df.close = some cs → cs.length = df.nrows → 14 ≤ df.nrows →
      (∀ x ∈ cs, x.isSome = true) →
      ∃ r, applyTechnicalAnalysis df = .ok r ∧
        r.bollinger_lower ≤ r.bollinger_upper) := by
  constructor
  · intro h
    exact ⟨_, by rw [applyTechnicalAnalysis, if_pos (Or.inr h)]⟩
  · intro cs hcs hlen h14 hsome
    have hcond : ¬(df.nrows = 0 ∨ df.nrows < 14) := by omega
    have hff : ffill cs = cs := ffillAux_of_all_some none cs hsome
    have hbf : bfill (ffill cs) = cs := by
      rw [hff]; exact bfill_of_all_some cs hsome
    have hany : (bfill (ffill cs)).any (fun x => x.isNone) = false := by
      rw [hbf, List.any_eq_false]
      intro x hx
      have h1 := hsome x hx
      cases x with
      | none => simp at h1
      | some a => simp
    refine ⟨⟨rsiLast 14 ((bfill (ffill cs)).filterMap id),
      macdLast ((bfill (ffill cs)).filterMap id),
      bollUpper ((bfill (ffill cs)).filterMap id),
      bollLower ((bfill (ffill cs)).filterMap id)⟩, ?_, ?_⟩
    · rw [applyTechnicalAnalysis, if_neg hcond, hcs]
      simp only [hany, Bool.false_eq_true, if_false]
    · show bollLower _ ≤ bollUpper _
      rw [bollLower, bollUpper]
      have hσ := Real.sqrt_nonneg
        ((sampleVar (lastWindow 20 ((bfill (ffill cs)).filterMap id)) : Rat) : Real)
      rw [bollSigma] at *
      linarith

/-- Witness for C2: the 13-row table fails with the validation error; the
20-row gap-free table yields indicator values with ordered bands. -/
theorem apply_technical_analysis_contract_witness :
    (∃ msg, applyTechnicalAnalysis df13 =
      .error (.validation "historical_data.index" msg)) ∧
    (∃ r, applyTechnicalAnalysis df20 = .ok r ∧
      r.bollinger_lower ≤ r.bollinger_upper) :=
  ⟨(apply_technical_analysis_contract df13).1 (by norm_num [df13]),
   (apply_technical_analysis_contract df20).2 (List.replicate 20 (some 100))
     rfl rfl (by norm_num [df20])
     (fun x hx => by rw [List.eq_of_mem_replicate hx]; rfl)⟩

/-- Every symbol whose pipeline core succeeds appends exactly one record, so
running the fan-out over a symbol list grows the registry by the list's
length. -/
theorem processAll_growth (fM : MarketFetcher) (fS : SocialFetcher)
    (scorer : Scorer)
    (hok : ∀ s, ∃ m, processMemecoinCore fM fS scorer s = .ok m) :
    ∀ (l : List String) (mgr : MemecoinManager),
      ∃ mgr', processAll fM fS scorer l mgr = .ok mgr' ∧
        mgr'.memecoins.length = mgr.memecoins.length + l.length := by
  intro l
  induction l with
  | nil => exact fun mgr => ⟨mgr, rfl, by simp [processAll]⟩
  | cons s rest ih =>
    intro mgr
    obtain ⟨m, hm⟩ := hok s
    obtain ⟨mgr', h1, h2⟩ := ih (mgr.add_memecoin m)
    refine ⟨mgr', ?_, ?_⟩
    · rw [processAll, processMemecoin, hm]
      exact h1
    · rw [h2]
      simp [MemecoinManager.add_memecoin]
      omega

/-- C5: on a non-empty symbol list, possibly with duplicates, whose distinct
symbols all process successfully under the injected clients, the batch
monitor succeeds and grows the registry by exactly the number of distinct
symbols — one appended record per distinct symbol. -/
theorem realtime_monitoring_distinct_growth (fM : MarketFetcher)
    (fS : SocialFetcher) (scorer : Scorer) (symbols : List String)
    (mgr : MemecoinManager) (hne : symbols ≠ [])
    (hok : ∀ s, ∃ m, processMemecoinCore fM fS scorer s = .ok m) :
    ∃ mgr', realtimeMonitoringAwaited fM fS scorer symbols mgr = .ok mgr' ∧
      mgr'.memecoins.length = mgr.memecoins.length + symbols.toFinset.card := by
  obtain ⟨mgr', h1, h2⟩ := processAll_growth fM fS scorer hok symbols.dedup mgr
  refine ⟨mgr', ?_, ?_⟩
  · rw [realtimeMonitoringAwaited,
      if_neg (by simp [List.isEmpty_iff, hne]), h1]
  · rw [h2, List.card_toFinset]

/-- Witness for C5: with the fixture clients, the list
`["SOL", "SOL", "ETH"]` (3 entries, 2 distinct) grows the empty registry to
exactly 2 records. -/
theorem realtime_monitoring_distinct_growth_witness :
    ∃ mgr', realtimeMonitoringAwaited goodMarketFetcher goodSocialFetcher
        goodScorer ["SOL", "SOL", "ETH"] MemecoinManager.new = .ok mgr' ∧
      mgr'.memecoins.length = 2 := by
  obtain ⟨mgr', h1, h2⟩ := realtime_monitoring_distinct_growth
    goodMarketFetcher goodSocialFetcher goodScorer ["SOL", "SOL", "ETH"]
    MemecoinManager.new (by simp)
    (fun s => ⟨⟨s, .pyStr "SOL Token", .pyFloat 150, .pyFloat 2000000,
      .pyFloat 1000000, .pyInt 10000, .pyInt 1, .pyFloat (4/5)⟩,
      by with_unfolding_all rfl⟩)
  exact ⟨mgr', h1, by rw [h2]; rfl⟩

/-- C3 (counterexample): with the failing scorer, the sentiment calculation
does raise the wrapped processing error naming the component
`nlp_processor`, the offending post and the cause — but the per-symbol
pipeline does not abort: `_create_memecoin_instance` catches the failure,
defaults the sentiment score to `0.0`, and the record is constructed and
appended to the registry, refuting the claimed abort at this concrete
input. -/
theorem scorer_failure_pipeline_still_appends :
    calculateSentimentScore failScorer [onePost] =
      .error (.processing "nlp_processor" (some (.pyDict onePost))
        "falha de API") ∧
    processMemecoin goodMarketFetcher goodSocialFetcher failScorer "SOL"
        MemecoinManager.new =
      .ok ⟨[⟨"SOL", .pyStr "SOL Token", .pyFloat 150, .pyFloat 2000000,
        .pyFloat 1000000, .pyInt 10000, .pyInt 1, .pyFloat 0⟩]⟩ :=
  ⟨rfl, rfl⟩

/-- C3 (amended): if the scorer fails for a reached post with anything other
than a `KeyError`, the sentiment calculation raises a processing error naming
the component `nlp_processor`, the offending post and the cause; record
construction, however, catches that failure, defaults the sentiment score to
`0.0`, and still constructs the record from the market fields (which the
pipeline then appends). -/
theorem scorer_failure_wrapped_record_created
    (scorer : Scorer) (p : Post) (rest : List Post) (t : PyVal) (msg : String)
    (market : PyDict) (sym : String) (nm pv vv lv hl : PyVal)
    (pq vq lq : Rat) (hk : Int)
    (ht : p.lookup "text" = some t)
    (hf : scorer t = .error (.other msg))
    (hnm : market.lookup "name" = some nm)
    (hpv : market.lookup "price" = some pv) (hpq : pv.toFloat = some pq)
    (hvv : market.lookup "volume" = some vv) (hvq : vv.toFloat = some vq)
    (hlv : market.lookup "liquidity" = some lv) (hlq : lv.toFloat = some lq)
    (hhv : market.lookup "holders" = some hl) (hhk : hl.toIntVal = some hk) :
    calculateSentimentScore scorer (p :: rest) =
      .error (.processing "nlp_processor" (some (.pyDict p)) msg) ∧
    createMemecoinInstance scorer sym market (.list (p :: rest)) =
      .ok ⟨sym, nm, .pyFloat pq, .pyFloat vq, .pyFloat lq, .pyInt hk,
        .pyInt ((p :: rest).length : Int), .pyFloat 0⟩ := by
  have hcoll : collectScores scorer (p :: rest) =
      .error (.processing "nlp_processor" (some (.pyDict p)) msg) := by
    simp only [collectScores, ht, hf]
    rfl
  have hcalc : calculateSentimentScore scorer (p :: rest) =
      .error (.processing "nlp_processor" (some (.pyDict p)) msg) := by
    simp [calculateSentimentScore, hcoll]
  have hmiss : firstMissingField requiredCreateFields market = none := by
    simp [firstMissingField, requiredCreateFields, hnm, hpv, hvv, hlv, hhv]
  refine ⟨hcalc, ?_⟩
  rw [createMemecoinInstance, hmiss]
  simp only [hcalc, getRequired, getFloatField, getIntField, pyFloatFn,
    pyIntFn, hnm, hpv, hpq, hvv, hvq, hlv, hlq, hhv, hhk]
  rfl

/-- Witness for the amended C3: the failing scorer on the one-post payload
with the fixture market data yields the wrapped processing error and a
constructed record with sentiment `0.0`. -/
theorem scorer_failure_wrapped_record_created_witness :
    calculateSentimentScore failScorer [onePost] =
      .error (.processing "nlp_processor" (some (.pyDict onePost))
        "falha de API") ∧
    createMemecoinInstance failScorer "ETH" goodMarket (.list [onePost]) =
      .ok ⟨"ETH", .pyStr "SOL Token", .pyFloat 150, .pyFloat 2000000,
        .pyFloat 1000000, .pyInt 10000, .pyInt 1, .pyFloat 0⟩ :=
  scorer_failure_wrapped_record_created failScorer onePost []
    (.pyStr "otimo projeto") "falha de API" goodMarket "ETH"
    (.pyStr "SOL Token") (.pyFloat 150) (.pyFloat 2000000) (.pyFloat 1000000)
    (.pyInt 10000) 150 2000000 1000000 10000
    rfl rfl rfl rfl rfl rfl rfl rfl rfl rfl rfl

/-- C4 (counterexample): awaited on an empty symbol list with the fixture
clients, the batch monitor does not return a non-error `None` result: the
validation error reaches the caller, because the synchronous `handle_errors`
wrapper cannot intercept exceptions raised inside the coroutine it returns. -/
theorem realtime_monitoring_empty_list_error :
    realtimeMonitoringAwaited goodMarketFetcher goodSocialFetcher goodScorer
        [] MemecoinManager.new =
      .error (.validation "symbols" "Lista de símbolos inválida") := rfl

/-- C4 (amended): for every client configuration and registry state, the
awaited batch monitor raises a validation error on an empty symbol list, and
the error propagates to the awaiting caller rather than being swallowed: the
`handle_errors(re_raise=False)` decorator wraps the coroutine function
synchronously, so its `try`/`except` never observes errors raised while the
coroutine runs (the repository's test `test_fluxo_com_falhas` likewise
expects errors from the batch monitor to propagate). -/
theorem realtime_monitoring_empty_list_propagates (fM : MarketFetcher)
    (fS : SocialFetcher) (scorer : Scorer) (mgr : MemecoinManager) :
    realtimeMonitoringAwaited fM fS scorer [] mgr =
      .error (.validation "symbols" "Lista de símbolos inválida") := rfl

/-- Witness for C10: construction succeeds with an empty symbol, a negative
price, a negative volume, zero liquidity, negative holders and a sentiment
score outside [-1, 1]. -/
theorem memecoin_construction_kind_checks_only_witness :
    mkMemecoin "" (.pyStr "") (.pyFloat (-5)) (.pyFloat (-1)) (.pyFloat 0)
        (.pyInt (-3)) (.pyInt 0) (.pyFloat 2) =
      .ok ⟨"", .pyStr "", .pyFloat (-5), .pyFloat (-1), .pyFloat 0,
        .pyInt (-3), .pyInt 0, .pyFloat 2⟩ :=
  memecoin_construction_kind_checks_only "" (.pyStr "") (.pyFloat (-5))
    (.pyFloat (-1)) (.pyFloat 0) (.pyInt (-3)) (.pyInt 0) (.pyFloat 2)
    rfl rfl rfl rfl rfl (Or.inr rfl)

end InsiderCrypto
